import Mathlib

/-!
Shallow embedding of the Memorando study-session backend
(`backend/core/document_processor.py`, `backend/core/study_methods/*.py`,
`backend/services/study_service.py`, `backend/api/study_routes.py`).

Text is modelled as `List Char`; external effects (speech playback, sleeping,
interrupting the speech engine) are modelled as an emitted event trace.
-/

namespace Memorando

/-- Text, as Python strings viewed character by character. -/
abbrev Txt := List Char

/-! ## Document processing (`backend/core/document_processor.py`) -/

/-- The whitespace characters stripped by Python `str.strip()`. -/
def isPySpace (c : Char) : Bool :=
  c = ' ' || c = '\t' || c = '\n' || c = '\r' || c = '\x0b' || c = '\x0c'

/-- Python `str.strip()`: remove leading and trailing whitespace. -/
def pyStrip (s : Txt) : Txt :=
  ((s.dropWhile isPySpace).reverse.dropWhile isPySpace).reverse

/-- `raw_text.replace('\r\n', '\n').replace('\r', '\n')`: every CRLF becomes
one LF, every remaining CR becomes LF (`fragment_text`, normalization step). -/
def normNewlines : Txt → Txt
  | [] => []
  | '\r' :: '\n' :: rest => '\n' :: normNewlines rest
  | '\r' :: rest => '\n' :: normNewlines rest
  | c :: rest => c :: normNewlines rest

/-- Python `s.split('\n')`: split on each newline; `''.split('\n') == ['']`. -/
def splitOnNl : Txt → List Txt
  | [] => [[]]
  | '\n' :: rest => [] :: splitOnNl rest
  | c :: rest =>
    match splitOnNl rest with
    | [] => [[c]]
    | h :: t => (c :: h) :: t

/-- Python `s.split('\n\n')`: split on leftmost non-overlapping occurrences of
a double newline. -/
def splitOnNlNl : Txt → List Txt
  | [] => [[]]
  | '\n' :: '\n' :: rest => [] :: splitOnNlNl rest
  | c :: rest =>
    match splitOnNlNl rest with
    | [] => [[c]]
    | h :: t => (c :: h) :: t

/-- The `TextSplitOption` literal type: `'paragraph' | 'line'`. -/
inductive SplitOption where
  | paragraph
  | line
deriving DecidableEq, Repr

/-- The pieces `fragment_text` strips and filters: `cleaned_text.split('\n\n')`
in paragraph mode, `cleaned_text.split('\n')` in line mode, where
`cleaned_text` is the CR-normalized raw text.  (The source's `else` branch for
an unknown option is unreachable: `TextSplitOption` admits only these two.) -/
def sourcePieces (raw_text : Txt) : SplitOption → List Txt
  | .paragraph => splitOnNlNl (normNewlines raw_text)
  | .line => splitOnNl (normNewlines raw_text)

/-- `DocumentProcessor.fragment_text` on an already-extracted non-empty
`raw_text`: both branches are the comprehension
`[p.strip() for p in pieces if p.strip()]`, i.e. strip each piece and keep the
non-empty results, in order. -/
def DocumentProcessor.fragment_text (raw_text : Txt) (split_by : SplitOption) : List Txt :=
  ((sourcePieces raw_text split_by).map pyStrip).filter (fun p => !p.isEmpty)

/-- `DocumentProcessor.extract_text`, given the `'\n'.join(page texts)` that
pypdf produced (an external input): the result is that text stripped; the
"no text extracted" exception and any pypdf exception are caught by the
`except` branch, which sets `raw_text = ''` — both collapse to the stripped
text being empty. -/
def DocumentProcessor.extract_text (pages_joined : Txt) : Txt :=
  pyStrip pages_joined

/-- `DocumentProcessor.__init__`: raises `FileNotFoundError` when the path does
not exist (`os.path.exists`, an external fact passed as `path_exists`), and
`ValueError` when `pdf_path.lower()` does not end in `'.pdf'`. -/
def DocumentProcessor.construct (path_exists : Bool) (pdf_path : Txt) : Except String Txt :=
  if !path_exists then Except.error "FileNotFoundError"
  else if !(List.isSuffixOf ['.', 'p', 'd', 'f'] (pdf_path.map Char.toLower)) then
    Except.error "ValueError"
  else Except.ok pdf_path

/-- The fragment pipeline as `start_study_session` runs it:
`processor.fragment_text(split_by)` first extracts (`raw_text` is still unset),
returns `[]` when the extracted text is empty, and otherwise strips and filters
the split pieces. -/
def fragment_pipeline (pages_joined : Txt) (split_by : SplitOption) : List Txt :=
  let raw := DocumentProcessor.extract_text pages_joined
  if raw.isEmpty then []
  else DocumentProcessor.fragment_text raw split_by

/-! ## Observable effects

The TTS engine (`backend/core/tts_engine.py`) and the clock are external
collaborators; calls into them are recorded as events. -/

/-- Externally observable calls: `tts_engine.speak(text)`,
`time.sleep(seconds)`, and `tts_engine.stop_speaking()`. -/
inductive Ev where
  | speak (text : Txt)
  | sleep (seconds : Nat)
  | interrupt
deriving DecidableEq, Repr

/-- The texts passed to `speak`, in call order. -/
def speaks : List Ev → List Txt
  | [] => []
  | Ev.speak t :: rest => t :: speaks rest
  | _ :: rest => speaks rest

/-! ## ReadRepeatMethod (`backend/core/study_methods/method_read_repeat.py`) -/

/-- The mutable fields of a `ReadRepeatMethod` instance (the `tts_engine`
reference is external; its calls appear in the event trace). -/
structure ReadRepeatMethod where
  name : String
  study_data : List Txt
  repeat_delay : Nat
  is_running : Bool
  stop_requested : Bool
deriving DecidableEq, Repr

/-- `ReadRepeatMethod.__init__(tts_engine, study_data, config)`:
`config_delay` is `config.get("repeat_delay_seconds", 5)`, the only config key
the class reads. -/
def ReadRepeatMethod.construct (study_data : List Txt) (config_delay : Option Nat) :
    ReadRepeatMethod :=
  { name := "Leer y Repetir"
  , study_data := study_data
  , repeat_delay := config_delay.getD 5
  , is_running := false
  , stop_requested := false }

/-- The `for i, chunk in enumerate(self.study_data)` loop body of
`ReadRepeatMethod.run`, started at fragment index `k`.  `stop_requested` is
written concurrently by `stop()`; `flag n` is the value the n-th read of
`self.stop_requested` inside the loop observes (reads are numbered `2*k` at
the top of iteration `k` and `2*k + 1` right after `speak` returns).  Each
iteration: check the flag and break, speak the chunk, re-check the flag and
break, then sleep for `repeat_delay` seconds. -/
def runLoopFrom (delay : Nat) (flag : Nat → Bool) : List Txt → Nat → List Ev
  | [], _ => []
  | chunk :: rest, k =>
    if flag (2 * k) then []
    else
      Ev.speak chunk ::
        (if flag (2 * k + 1) then []
         else Ev.sleep delay :: runLoopFrom delay flag rest (k + 1))

/-- The event trace of `ReadRepeatMethod.run`: an empty `study_data` returns
immediately; otherwise `run` sets `is_running = True`, resets
`self.stop_requested = False`, and enters the loop — so the trace depends only
on the flag values that `stop()` calls concurrent with the loop produce, never
on the pre-`run` value of `stop_requested`. -/
def ReadRepeatMethod.runEvents (m : ReadRepeatMethod) (flag : Nat → Bool) : List Ev :=
  if m.study_data.isEmpty then []
  else runLoopFrom m.repeat_delay flag m.study_data 0

/-- `ReadRepeatMethod.run` in the absence of any concurrent `stop()` call:
after the entry reset `self.stop_requested = False`, every read of the flag
yields `False`, the loop processes every chunk, and the method ends with
`is_running = False` and `stop_requested = False`. -/
def ReadRepeatMethod.runNoStop (m : ReadRepeatMethod) : List Ev × ReadRepeatMethod :=
  if m.study_data.isEmpty then ([], m)
  else
    (runLoopFrom m.repeat_delay (fun _ => false) m.study_data 0,
     { m with is_running := false, stop_requested := false })

/-- `ReadRepeatMethod.stop`: set `stop_requested = True` and call
`tts_engine.stop_speaking()` (one interrupt event). -/
def ReadRepeatMethod.stop (m : ReadRepeatMethod) : ReadRepeatMethod × List Ev :=
  ({ m with stop_requested := true }, [Ev.interrupt])

/-! ## Method registry and listing endpoint
(`study_service.AVAILABLE_METHODS`, `study_routes.list_available_methods`) -/

/-- Call-shape of a registered method class: how many `__init__` parameters
(after `self`) have no default, and the `name` the instance would carry. -/
structure MethodClassInfo where
  requiredParams : Nat
  displayName : String
deriving DecidableEq, Repr

/-- `ReadRepeatMethod.__init__(self, tts_engine, study_data, config)`: three
required parameters, none with a default; `self.name = "Leer y Repetir"`. -/
def ReadRepeatMethod.classInfo : MethodClassInfo :=
  { requiredParams := 3, displayName := "Leer y Repetir" }

/-- `AVAILABLE_METHODS = {"read_repeat": ReadRepeatMethod}`. -/
def AVAILABLE_METHODS : List (String × MethodClassInfo) :=
  [("read_repeat", ReadRepeatMethod.classInfo)]

/-- Python semantics of the call `method_cls()` with zero arguments: it
succeeds (yielding an instance whose `name` is the display name) only when
`__init__` has no required parameters; otherwise Python raises
`TypeError: missing required positional arguments`. -/
def instantiateWithNoArgs (c : MethodClassInfo) : Except String String :=
  if c.requiredParams = 0 then Except.ok c.displayName
  else Except.error "TypeError: missing required positional arguments"

/-- `GET /study/methods` handler body: the dict comprehension
`[name: method_cls().name for ...]` over `AVAILABLE_METHODS`; an exception in
any entry aborts the whole comprehension (and hence the request). -/
def list_available_methods : Except String (List (String × String)) :=
  AVAILABLE_METHODS.mapM (fun nc => (instantiateWithNoArgs nc.2).map (fun d => (nc.1, d)))

/-! ## StudyService (`backend/services/study_service.py`) -/

/-- The controller state: `current_method`, `session_thread` (only the
presence of the `threading.Thread` handle is observable in the model), and
`is_session_active`.  `StudyService.__init__` also constructs the TTS engine,
an external effect. -/
structure StudyService where
  current_method : Option ReadRepeatMethod
  session_thread : Option Unit
  is_session_active : Bool
deriving DecidableEq, Repr

/-- `StudyService.__init__`: no method, no thread, inactive. -/
def StudyService.mkNew : StudyService :=
  { current_method := none, session_thread := none, is_session_active := false }

/-- `GET /study/status` (`get_study_status`): report `is_session_active` and
`current_method.name if current_method else None`. -/
def StudyService.get_study_status (s : StudyService) : Bool × Option String :=
  (s.is_session_active, s.current_method.map (fun m => m.name))

/-- The distinct `return False` branches of `start_study_session`, told apart
by their printed messages in the source. -/
inductive StartFailure where
  | alreadyActive
  | unknownMethod
  | raisedError (msg : String)
  | noFragments
deriving DecidableEq, Repr

/-- The spec's `ExtractionError` cases among the failure branches: the
`except` branch (e.g. `DocumentProcessor` raising) and the zero-fragments
branch. -/
def StartFailure.isExtractionError : StartFailure → Bool
  | .raisedError _ => true
  | .noFragments => true
  | _ => false

/-- `StudyService.start_study_session(pdf_path, method_name, split_by,
method_config)`.  External inputs are passed explicitly: `path_exists` is
`os.path.exists(pdf_path)` and `pages_joined` is the text pypdf yields.
In order: refuse when already active; look up `method_name` in
`AVAILABLE_METHODS`; construct the `DocumentProcessor` (its exceptions are
caught by the `except` branch, which sets `current_method = None`); fragment;
refuse on zero fragments; otherwise build the `ReadRepeatMethod` (the only
registered class), spawn the daemon thread, and set `is_session_active`.
Returns the failure or success, the new state, and the emitted events. -/
def StudyService.start_study_session (s : StudyService) (path_exists : Bool)
    (pdf_path : Txt) (method_name : String) (pages_joined : Txt)
    (split_by : SplitOption) (config_delay : Option Nat) :
    Except StartFailure Unit × StudyService × List Ev :=
  if s.is_session_active then (Except.error StartFailure.alreadyActive, s, [])
  else if (AVAILABLE_METHODS.lookup method_name).isNone then
    (Except.error StartFailure.unknownMethod, s, [])
  else
    match DocumentProcessor.construct path_exists pdf_path with
    | Except.error e =>
      (Except.error (StartFailure.raisedError e), { s with current_method := none }, [])
    | Except.ok _ =>
      let study_data := fragment_pipeline pages_joined split_by
      if study_data.isEmpty then (Except.error StartFailure.noFragments, s, [])
      else
        (Except.ok (),
         { current_method := some (ReadRepeatMethod.construct study_data config_delay)
         , session_thread := some ()
         , is_session_active := true }, [])

/-- How the background thread's `self.current_method.run()` call ended:
normally (with its event trace and final method state), or with an uncaught
exception after emitting some events. -/
inductive RunResult where
  | normal (evs : List Ev) (m : ReadRepeatMethod)
  | raised (evs : List Ev)

/-- `StudyService._run_method_safely`: when `current_method` is set, run it;
an exception is caught and logged (never propagated — the function returns
normally in both cases); the `finally` block sets `is_session_active = False`
and `current_method = None`.  It does not touch `session_thread`. -/
def StudyService.run_method_safely (s : StudyService) (r : RunResult) :
    StudyService × List Ev :=
  match s.current_method with
  | none => (s, [])
  | some _ =>
    match r with
    | RunResult.normal evs _ =>
      ({ s with is_session_active := false, current_method := none }, evs)
    | RunResult.raised evs =>
      ({ s with is_session_active := false, current_method := none }, evs)

/-- `StudyService.stop_study_session`: when `is_session_active and
current_method`, call `current_method.stop()` (which interrupts the TTS
engine), join the thread with a 2-second timeout (no observable pure effect),
and clear `is_session_active`, `current_method` and `session_thread`;
otherwise report that nothing was running and change nothing. -/
def StudyService.stop_study_session (s : StudyService) :
    Bool × StudyService × List Ev :=
  match s.is_session_active, s.current_method with
  | true, some m =>
    let (_, evs) := m.stop
    (true,
     { current_method := none, session_thread := none, is_session_active := false },
     evs)
  | _, _ => (false, s, [])

/-- `POST /study/stop` handler (`stop_study`): call `stop_study_session` and
respond with HTTP 200 and body `(is_active = False, current_method = None)` in
both the stopped and the nothing-was-running branch. -/
def stop_study (s : StudyService) : (Nat × Bool × Option String) × StudyService × List Ev :=
  let r := s.stop_study_session
  ((200, false, none), r.2.1, r.2.2)

/-! ## Helper lemmas -/

theorem head?_dropWhile_not {α : Type} (p : α → Bool) (l : List α) (c : α)
    (h : (l.dropWhile p).head? = some c) : p c = false := by
  induction l with
  | nil => simp [List.dropWhile] at h
  | cons a t ih =>
    rw [List.dropWhile_cons] at h
    by_cases hp : p a = true
    · rw [if_pos hp] at h
      exact ih h
    · rw [if_neg hp] at h
      simp only [List.head?_cons, Option.some.injEq] at h
      subst h
      exact Bool.not_eq_true _ ▸ hp

theorem dropWhile_dropWhile {α : Type} (p : α → Bool) (l : List α) :
    (l.dropWhile p).dropWhile p = l.dropWhile p := by
  induction l with
  | nil => rfl
  | cons a t ih =>
    rw [List.dropWhile_cons]
    by_cases hp : p a = true
    · rw [if_pos hp]
      exact ih
    · rw [if_neg hp, List.dropWhile_cons, if_neg hp]

theorem getLast?_dropWhile {α : Type} (p : α → Bool) (l : List α)
    (h : l.dropWhile p ≠ []) : (l.dropWhile p).getLast? = l.getLast? := by
  induction l with
  | nil => simp at h
  | cons a t ih =>
    rw [List.dropWhile_cons] at h ⊢
    by_cases hp : p a = true
    · rw [if_pos hp] at h ⊢
      rw [ih h]
      have ht : t ≠ [] := by
        intro he
        rw [he] at h
        simp at h
      cases t with
      | nil => exact absurd rfl ht
      | cons b u => simp
    · rw [if_neg hp]

theorem dropWhile_eq_self_of_head {α : Type} (p : α → Bool) (l : List α)
    (h : ∀ c, l.head? = some c → p c = false) : l.dropWhile p = l := by
  cases l with
  | nil => rfl
  | cons a t =>
    rw [List.dropWhile_cons, if_neg]
    simp [h a rfl]

theorem pyStrip_idem (s : Txt) : pyStrip (pyStrip s) = pyStrip s := by
  have hs : pyStrip s = ((s.dropWhile isPySpace).reverse.dropWhile isPySpace).reverse := rfl
  by_cases hBe : (s.dropWhile isPySpace).reverse.dropWhile isPySpace = []
  · rw [hs, hBe]
    rfl
  · have h1 : (((s.dropWhile isPySpace).reverse.dropWhile isPySpace).reverse).dropWhile isPySpace
        = ((s.dropWhile isPySpace).reverse.dropWhile isPySpace).reverse := by
      apply dropWhile_eq_self_of_head
      intro c hc
      rw [List.head?_reverse, getLast?_dropWhile _ _ hBe, List.getLast?_reverse] at hc
      exact head?_dropWhile_not isPySpace s c hc
    rw [hs]
    unfold pyStrip
    rw [h1, List.reverse_reverse, dropWhile_dropWhile]

theorem speaks_speak_cons (t : Txt) (evs : List Ev) :
    speaks (Ev.speak t :: evs) = t :: speaks evs := rfl

theorem speaks_sleep_cons (n : Nat) (evs : List Ev) :
    speaks (Ev.sleep n :: evs) = speaks evs := rfl

theorem runLoopFrom_flag_true (d : Nat) (flag : Nat → Bool) (frags : List Txt) (k : Nat)
    (h : flag (2 * k) = true) : runLoopFrom d flag frags k = [] := by
  cases frags with
  | nil => rfl
  | cons c r => simp [runLoopFrom, h]

theorem speaks_runLoopFrom_false (d : Nat) (frags : List Txt) :
    ∀ k, speaks (runLoopFrom d (fun _ => false) frags k) = frags := by
  induction frags with
  | nil => intro k; rfl
  | cons c r ih =>
    intro k
    simp only [runLoopFrom, if_neg (by simp : ¬((fun _ : Nat => false) (2 * k) = true)),
      if_neg (by simp : ¬((fun _ : Nat => false) (2 * k + 1) = true)),
      speaks_speak_cons, speaks_sleep_cons, ih (k + 1)]

theorem mem_speaks_runLoopFrom (d : Nat) (flag : Nat → Bool) (frags : List Txt) :
    ∀ k t, t ∈ speaks (runLoopFrom d flag frags k) → t ∈ frags := by
  induction frags with
  | nil =>
    intro k t h
    simp [runLoopFrom, speaks] at h
  | cons c r ih =>
    intro k t h
    rw [runLoopFrom] at h
    by_cases h0 : flag (2 * k) = true
    · rw [if_pos h0] at h
      simp [speaks] at h
    · rw [if_neg h0] at h
      by_cases h1 : flag (2 * k + 1) = true
      · rw [if_pos h1, speaks_speak_cons] at h
        simp only [speaks] at h
        rw [List.mem_singleton] at h
        exact h ▸ List.mem_cons_self c r
      · rw [if_neg h1, speaks_speak_cons, speaks_sleep_cons] at h
        rcases List.mem_cons.mp h with h | h
        · exact h ▸ List.mem_cons_self c r
        · exact List.mem_cons_of_mem _ (ih (k + 1) t h)

theorem speaks_runNoStop (m : ReadRepeatMethod) :
    speaks ((m.runNoStop).1) = m.study_data := by
  unfold ReadRepeatMethod.runNoStop
  by_cases he : m.study_data.isEmpty = true
  · rw [if_pos he]
    rw [List.isEmpty_iff.mp he]
    rfl
  · rw [if_neg he]
    exact speaks_runLoopFrom_false _ _ 0

theorem fragment_text_props (raw : Txt) (sp : SplitOption) (f : Txt)
    (hf : f ∈ DocumentProcessor.fragment_text raw sp) : f ≠ [] ∧ pyStrip f = f := by
  unfold DocumentProcessor.fragment_text at hf
  rw [List.mem_filter] at hf
  obtain ⟨hmem, hne⟩ := hf
  constructor
  · intro he
    rw [he] at hne
    simp at hne
  · rcases List.mem_map.mp hmem with ⟨p, _, hp⟩
    rw [← hp]
    exact pyStrip_idem p

theorem mem_fragment_pipeline (raw : Txt) (sp : SplitOption) (t : Txt)
    (h : t ∈ fragment_pipeline raw sp) :
    t ∈ DocumentProcessor.fragment_text (DocumentProcessor.extract_text raw) sp := by
  unfold fragment_pipeline at h
  by_cases he : (DocumentProcessor.extract_text raw).isEmpty = true
  · rw [if_pos he] at h
    simp at h
  · rw [if_neg he] at h
    exact h

/-! ## Claim theorems -/

/-- C1 (code bug): listing the available study methods is claimed to return
one entry per registered method by instantiating each class with empty inputs
and reading its name, with the `read_repeat` instantiation succeeding.  In the
code, `list_available_methods` evaluates `method_cls()` with zero arguments,
but `ReadRepeatMethod.__init__` requires `tts_engine`, `study_data` and
`config` with no defaults, so the instantiation raises `TypeError` and the
whole listing fails instead of returning the mapping. -/
theorem C1_list_methods_raises :
    instantiateWithNoArgs ReadRepeatMethod.classInfo =
      Except.error "TypeError: missing required positional arguments" ∧
    list_available_methods =
      Except.error "TypeError: missing required positional arguments" :=
  ⟨rfl, rfl⟩

/-- C2 counterexample: the claim says that calling `stop()` before `run()`
begins makes `run()` speak zero fragments.  On the instance built from the
single fragment `"A"`, `stop()` followed by `run()` (with no further
concurrent stop) speaks one fragment, because `run()` resets
`self.stop_requested = False` before entering the loop. -/
theorem C2_counterexample :
    speaks ((((ReadRepeatMethod.construct [['A']] none).stop).1.runNoStop).1) ≠ [] := by
  decide

/-- C2 (amended): if the stop flag reads true when the task loop reaches the
start of a fragment iteration, the loop exits before processing that fragment;
however, because `run()` resets `stop_requested` to `False` on entry, calling
`stop()` before `run()` begins results in `run()` speaking every fragment, not
zero. -/
theorem C2_stop_flag_loop (delay : Nat) (flag : Nat → Bool) (frags : List Txt)
    (k : Nat) (m : ReadRepeatMethod) (h : flag (2 * k) = true) :
    runLoopFrom delay flag frags k = [] ∧
    speaks (((m.stop).1.runNoStop).1) = m.study_data :=
  ⟨runLoopFrom_flag_true delay flag frags k h, speaks_runNoStop (m.stop).1⟩

/-- Witness for C2: the amended statement at `delay = 0`,
`flag = fun _ => true`, fragment list `["A"]`, `k = 0`, and the instance built
from `["A", "B"]`. -/
theorem C2_witness :
    (fun _ : Nat => true) (2 * 0) = true ∧
    (runLoopFrom 0 (fun _ => true) [['A']] 0 = [] ∧
     speaks ((((ReadRepeatMethod.construct [['A'], ['B']] none).stop).1.runNoStop).1) =
       (ReadRepeatMethod.construct [['A'], ['B']] none).study_data) :=
  ⟨rfl, C2_stop_flag_loop 0 (fun _ => true) [['A']] 0
    (ReadRepeatMethod.construct [['A'], ['B']] none) rfl⟩

/-- C3 (confirmed): for every non-empty fragment list, running the
read-and-repeat loop to completion with no stop request speaks exactly the
fragments, once each, in list order; and after the background task finishes
(`_run_method_safely` runs its cleanup), `status()` reports
`active == false` with `currentMethod == null`. -/
theorem C3_run_to_completion (frags : List Txt) (cfg : Option Nat)
    (st : StudyService) (hne : frags ≠ [])
    (hm : st.current_method = some (ReadRepeatMethod.construct frags cfg)) :
    speaks (((ReadRepeatMethod.construct frags cfg).runNoStop).1) = frags ∧
    (st.run_method_safely
      (RunResult.normal (((ReadRepeatMethod.construct frags cfg).runNoStop).1)
        (((ReadRepeatMethod.construct frags cfg).runNoStop).2))).1.get_study_status =
      (false, none) := by
  constructor
  · exact speaks_runNoStop (ReadRepeatMethod.construct frags cfg)
  · unfold StudyService.run_method_safely
    rw [hm]
    rfl

/-- Witness for C3: the fragments `["A", "B", "C"]` with
`repeat_delay_seconds = 0`, on a controller whose active session holds that
method instance. -/
theorem C3_witness :
    ([['A'], ['B'], ['C']] : List Txt) ≠ [] ∧
    (StudyService.mk (some (ReadRepeatMethod.construct [['A'], ['B'], ['C']] (some 0)))
        (some ()) true).current_method =
      some (ReadRepeatMethod.construct [['A'], ['B'], ['C']] (some 0)) ∧
    (speaks (((ReadRepeatMethod.construct [['A'], ['B'], ['C']] (some 0)).runNoStop).1) =
        [['A'], ['B'], ['C']] ∧
      ((StudyService.mk (some (ReadRepeatMethod.construct [['A'], ['B'], ['C']] (some 0)))
          (some ()) true).run_method_safely
        (RunResult.normal
          (((ReadRepeatMethod.construct [['A'], ['B'], ['C']] (some 0)).runNoStop).1)
          (((ReadRepeatMethod.construct [['A'], ['B'], ['C']] (some 0)).runNoStop).2))).1.get_study_status =
        (false, none)) :=
  ⟨by decide, rfl,
   C3_run_to_completion [['A'], ['B'], ['C']] (some 0)
     (StudyService.mk (some (ReadRepeatMethod.construct [['A'], ['B'], ['C']] (some 0)))
       (some ()) true)
     (by decide) rfl⟩

/-- C4 counterexample: the claim says the background task's finalization also
clears `backgroundTask`.  On a controller whose active session holds a thread
handle, `_run_method_safely` (here on the uncaught-exception path) leaves
`session_thread` set: the `finally` block only clears `is_session_active` and
`current_method`. -/
theorem C4_counterexample :
    ((StudyService.mk (some (ReadRepeatMethod.construct [['A']] none)) (some ()) true).run_method_safely
        (RunResult.raised [])).1.session_thread ≠ none := by
  decide

/-- C4 (amended): on every exit path of the task loop (normal completion, stop
request, or uncaught exception — the exception is caught, never propagated),
`_run_method_safely`'s finalization clears `active` and `currentMethod`, so a
failed task never leaves the session stuck active; the task handle
(`session_thread`) is not cleared by this finalization (only `stop()` clears
it). -/
theorem C4_cleanup_every_exit (s : StudyService) (m : ReadRepeatMethod)
    (r : RunResult) (hm : s.current_method = some m) :
    (s.run_method_safely r).1.is_session_active = false ∧
    (s.run_method_safely r).1.current_method = none ∧
    (s.run_method_safely r).1.session_thread = s.session_thread ∧
    (s.run_method_safely r).1.get_study_status = (false, none) := by
  unfold StudyService.run_method_safely
  rw [hm]
  cases r with
  | normal evs mf => exact ⟨rfl, rfl, rfl, rfl⟩
  | raised evs => exact ⟨rfl, rfl, rfl, rfl⟩

/-- Witness for C4: the amended statement on an active controller holding the
one-fragment method, with the task ending in an uncaught exception. -/
theorem C4_witness :
    (StudyService.mk (some (ReadRepeatMethod.construct [['A']] none)) (some ()) true).current_method =
      some (ReadRepeatMethod.construct [['A']] none) ∧
    (((StudyService.mk (some (ReadRepeatMethod.construct [['A']] none)) (some ()) true).run_method_safely
        (RunResult.raised [])).1.is_session_active = false ∧
      ((StudyService.mk (some (ReadRepeatMethod.construct [['A']] none)) (some ()) true).run_method_safely
        (RunResult.raised [])).1.current_method = none ∧
      ((StudyService.mk (some (ReadRepeatMethod.construct [['A']] none)) (some ()) true).run_method_safely
        (RunResult.raised [])).1.session_thread =
        (StudyService.mk (some (ReadRepeatMethod.construct [['A']] none)) (some ()) true).session_thread ∧
      ((StudyService.mk (some (ReadRepeatMethod.construct [['A']] none)) (some ()) true).run_method_safely
        (RunResult.raised [])).1.get_study_status = (false, none)) :=
  ⟨rfl, C4_cleanup_every_exit
    (StudyService.mk (some (ReadRepeatMethod.construct [['A']] none)) (some ()) true)
    (ReadRepeatMethod.construct [['A']] none) (RunResult.raised []) rfl⟩

/-- C5 (confirmed): on a controller state with an active session (per the
data-model invariant, `active == true` with a current method set), `stop()`
invokes the Speech Actor's interrupt capability exactly once, and afterwards
`currentMethod` and `backgroundTask` are cleared, `active` is false, and
`status()` reports `(false, none)`. -/
theorem C5_stop_active (s : StudyService) (m : ReadRepeatMethod)
    (hA : s.is_session_active = true) (hM : s.current_method = some m) :
    (s.stop_study_session).1 = true ∧
    (s.stop_study_session).2.2 = [Ev.interrupt] ∧
    ((s.stop_study_session).2.2).count Ev.interrupt = 1 ∧
    (s.stop_study_session).2.1.current_method = none ∧
    (s.stop_study_session).2.1.session_thread = none ∧
    (s.stop_study_session).2.1.is_session_active = false ∧
    (s.stop_study_session).2.1.get_study_status = (false, none) := by
  unfold StudyService.stop_study_session
  rw [hA, hM]
  exact ⟨rfl, rfl, rfl, rfl, rfl, rfl, rfl⟩

/-- Witness for C5: an active controller holding the one-fragment method. -/
theorem C5_witness :
    (StudyService.mk (some (ReadRepeatMethod.construct [['A']] none)) (some ()) true).is_session_active = true ∧
    (StudyService.mk (some (ReadRepeatMethod.construct [['A']] none)) (some ()) true).current_method =
      some (ReadRepeatMethod.construct [['A']] none) ∧
    (((StudyService.mk (some (ReadRepeatMethod.construct [['A']] none)) (some ()) true).stop_study_session).1 = true ∧
      (((StudyService.mk (some (ReadRepeatMethod.construct [['A']] none)) (some ()) true).stop_study_session).2.2 = [Ev.interrupt] ∧
      ((((StudyService.mk (some (ReadRepeatMethod.construct [['A']] none)) (some ()) true).stop_study_session).2.2).count Ev.interrupt = 1 ∧
      (((StudyService.mk (some (ReadRepeatMethod.construct [['A']] none)) (some ()) true).stop_study_session).2.1.current_method = none ∧
      (((StudyService.mk (some (ReadRepeatMethod.construct [['A']] none)) (some ()) true).stop_study_session).2.1.session_thread = none ∧
      (((StudyService.mk (some (ReadRepeatMethod.construct [['A']] none)) (some ()) true).stop_study_session).2.1.is_session_active = false ∧
      ((StudyService.mk (some (ReadRepeatMethod.construct [['A']] none)) (some ()) true).stop_study_session).2.1.get_study_status = (false, none))))))) :=
  ⟨rfl, rfl, C5_stop_active
    (StudyService.mk (some (ReadRepeatMethod.construct [['A']] none)) (some ()) true)
    (ReadRepeatMethod.construct [['A']] none) rfl rfl⟩

/-- C6 (confirmed): on a controller state with an active session, `start()`
fails on the already-active branch and returns before creating any state: the
result is exactly the failure, the unchanged state, and an empty event trace
(no method instance, no thread, no Speech Actor call). -/
theorem C6_start_already_active (s : StudyService) (pe : Bool) (path : Txt)
    (mn : String) (pages : Txt) (sp : SplitOption) (cfg : Option Nat)
    (h : s.is_session_active = true) :
    s.start_study_session pe path mn pages sp cfg =
      (Except.error StartFailure.alreadyActive, s, []) := by
  unfold StudyService.start_study_session
  rw [h]
  rfl

/-- Witness for C6: a second `start()` against an active controller leaves the
triple exactly as the failure, the untouched state, and no events. -/
theorem C6_witness :
    (StudyService.mk (some (ReadRepeatMethod.construct [['A']] none)) (some ()) true).is_session_active = true ∧
    (StudyService.mk (some (ReadRepeatMethod.construct [['A']] none)) (some ()) true).start_study_session
        true ['d', '.', 'p', 'd', 'f'] "read_repeat" ['B'] SplitOption.paragraph none =
      (Except.error StartFailure.alreadyActive,
        StudyService.mk (some (ReadRepeatMethod.construct [['A']] none)) (some ()) true, []) :=
  ⟨rfl, C6_start_already_active
    (StudyService.mk (some (ReadRepeatMethod.construct [['A']] none)) (some ()) true)
    true ['d', '.', 'p', 'd', 'f'] "read_repeat" ['B'] SplitOption.paragraph none rfl⟩

/-- C7 (confirmed): starting from an inactive controller, when the fragment
extraction raises (the `DocumentProcessor` constructor fails) or yields zero
fragments, `start()` fails on one of the spec's `ExtractionError` branches,
emits no Speech Actor calls, leaves the thread slot unchanged (spawns no
background task), and the controller keeps reporting `active == false` with
`currentMethod == null`. -/
theorem C7_extraction_failure (s : StudyService) (pe : Bool) (path : Txt)
    (pages : Txt) (sp : SplitOption) (cfg : Option Nat)
    (hIdle : s.is_session_active = false) (hNone : s.current_method = none)
    (hFail : (DocumentProcessor.construct pe path).isOk = false ∨
      fragment_pipeline pages sp = []) :
    (∃ e, (s.start_study_session pe path "read_repeat" pages sp cfg).1 =
        Except.error e ∧ e.isExtractionError = true) ∧
    (s.start_study_session pe path "read_repeat" pages sp cfg).2.2 = [] ∧
    (s.start_study_session pe path "read_repeat" pages sp cfg).2.1.session_thread =
      s.session_thread ∧
    (s.start_study_session pe path "read_repeat" pages sp cfg).2.1.get_study_status =
      (false, none) := by
  cases hC : DocumentProcessor.construct pe path with
  | error e =>
    have hstart : s.start_study_session pe path "read_repeat" pages sp cfg =
        (Except.error (StartFailure.raisedError e), { s with current_method := none }, []) := by
      unfold StudyService.start_study_session
      rw [hIdle, hC]
      rfl
    rw [hstart]
    refine ⟨⟨StartFailure.raisedError e, rfl, rfl⟩, rfl, rfl, ?_⟩
    simp [StudyService.get_study_status, hIdle]
  | ok v =>
    have hPipe : fragment_pipeline pages sp = [] := by
      cases hFail with
      | inl hl => rw [hC] at hl; exact Bool.noConfusion hl
      | inr hr => exact hr
    have hstart : s.start_study_session pe path "read_repeat" pages sp cfg =
        (Except.error StartFailure.noFragments, s, []) := by
      unfold StudyService.start_study_session
      rw [hIdle, hC, hPipe]
      rfl
    rw [hstart]
    refine ⟨⟨StartFailure.noFragments, rfl, rfl⟩, rfl, rfl, ?_⟩
    simp [StudyService.get_study_status, hIdle, hNone]

/-- Witness for C7: a fresh controller and a non-existent file path (the
`DocumentProcessor` constructor raises `FileNotFoundError`). -/
theorem C7_witness :
    StudyService.mkNew.is_session_active = false ∧
    StudyService.mkNew.current_method = none ∧
    ((DocumentProcessor.construct false ['d']).isOk = false ∨
      fragment_pipeline [] SplitOption.paragraph = []) ∧
    ((∃ e, (StudyService.mkNew.start_study_session false ['d'] "read_repeat" []
          SplitOption.paragraph none).1 = Except.error e ∧ e.isExtractionError = true) ∧
      (StudyService.mkNew.start_study_session false ['d'] "read_repeat" []
          SplitOption.paragraph none).2.2 = [] ∧
      (StudyService.mkNew.start_study_session false ['d'] "read_repeat" []
          SplitOption.paragraph none).2.1.session_thread = StudyService.mkNew.session_thread ∧
      (StudyService.mkNew.start_study_session false ['d'] "read_repeat" []
          SplitOption.paragraph none).2.1.get_study_status = (false, none)) :=
  ⟨rfl, rfl, Or.inl rfl,
   C7_extraction_failure StudyService.mkNew false ['d'] [] SplitOption.paragraph none
     rfl rfl (Or.inl rfl)⟩

/-- C8 (confirmed): on any controller with no active session, `stop()` is a
no-op returning the inactive snapshot with no Speech Actor calls and no state
change; the `POST /study/stop` endpoint responds `(200, active = false,
currentMethod = none)` for every state, and stopping the post-stop state is
again a no-op (idempotence). -/
theorem C8_stop_inactive_idempotent (s t : StudyService)
    (h : s.is_session_active = false) :
    s.stop_study_session = (false, s, []) ∧
    stop_study s = ((200, false, none), s, []) ∧
    (stop_study t).1 = (200, false, none) ∧
    ((stop_study t).2.1).stop_study_session = (false, (stop_study t).2.1, []) := by
  have h1 : s.stop_study_session = (false, s, []) := by
    unfold StudyService.stop_study_session
    rw [h]
  have hpost : ((t.stop_study_session).2.1).stop_study_session =
      (false, (t.stop_study_session).2.1, []) := by
    cases ha : t.is_session_active with
    | true =>
      cases hc : t.current_method with
      | some m =>
        have he : t.stop_study_session =
            (true, StudyService.mk none none false, [Ev.interrupt]) := by
          unfold StudyService.stop_study_session
          rw [ha, hc]
          rfl
        simp only [he]
        rfl
      | none =>
        have he : t.stop_study_session = (false, t, []) := by
          unfold StudyService.stop_study_session
          rw [ha, hc]
        simp only [he]
    | false =>
      have he : t.stop_study_session = (false, t, []) := by
        unfold StudyService.stop_study_session
        rw [ha]
      simp only [he]
  refine ⟨h1, ?_, rfl, hpost⟩
  unfold stop_study
  rw [h1]

/-- Witness for C8: the freshly constructed controller, both as the inactive
state and as the "regardless" state. -/
theorem C8_witness :
    StudyService.mkNew.is_session_active = false ∧
    (StudyService.mkNew.stop_study_session = (false, StudyService.mkNew, []) ∧
      stop_study StudyService.mkNew = ((200, false, none), StudyService.mkNew, []) ∧
      (stop_study StudyService.mkNew).1 = (200, false, none) ∧
      ((stop_study StudyService.mkNew).2.1).stop_study_session =
        (false, (stop_study StudyService.mkNew).2.1, [])) :=
  ⟨rfl, C8_stop_inactive_idempotent StudyService.mkNew StudyService.mkNew rfl⟩

/-- C9 counterexample: the claim says that after `run()` has exited, invoking
`run()` again on the same instance processes no fragments.  On the instance
built from the single fragment `"A"`, running to completion and then calling
`run()` again speaks the fragment again: `run()` has no re-entry guard. -/
theorem C9_counterexample :
    speaks ((((ReadRepeatMethod.construct [['A']] none).runNoStop).2.runNoStop).1) ≠ [] := by
  decide

/-- C9 (amended): a Study Method instance's loop runs at most once only
because the controller's background task invokes `run()` exactly once per
instance; the method itself has no re-entry guard — invoking `run()` again on
an instance whose loop has exited re-processes every fragment. -/
theorem C9_no_reentry_guard (m : ReadRepeatMethod) :
    speaks ((((m.runNoStop).2).runNoStop).1) = m.study_data := by
  have h2 : ((m.runNoStop).2).study_data = m.study_data := by
    unfold ReadRepeatMethod.runNoStop
    by_cases he : m.study_data.isEmpty = true
    · rw [if_pos he]
    · rw [if_neg he]
  rw [speaks_runNoStop]
  exact h2

/-- C10 (confirmed): every fragment `fragment_text` returns is non-empty and
free of leading/trailing whitespace (a fixpoint of `strip`), the fragment list
is a sublist of the stripped split pieces in source order, and consequently
the task loop never passes an empty string to `speak`. -/
theorem C10_fragments_clean (raw : Txt) (sp : SplitOption) (cfg : Option Nat)
    (flag : Nat → Bool) (f t : Txt)
    (hf : f ∈ DocumentProcessor.fragment_text raw sp)
    (ht : t ∈ speaks ((ReadRepeatMethod.construct (fragment_pipeline raw sp) cfg).runEvents flag)) :
    (f ≠ [] ∧ pyStrip f = f) ∧
    List.Sublist (DocumentProcessor.fragment_text raw sp) ((sourcePieces raw sp).map pyStrip) ∧
    t ≠ [] := by
  refine ⟨fragment_text_props raw sp f hf, List.filter_sublist _, ?_⟩
  have ht2 : t ∈ speaks (if (fragment_pipeline raw sp).isEmpty = true then []
      else runLoopFrom
        ((ReadRepeatMethod.construct (fragment_pipeline raw sp) cfg).repeat_delay)
        flag (fragment_pipeline raw sp) 0) := ht
  have h1 : t ∈ fragment_pipeline raw sp := by
    by_cases he : (fragment_pipeline raw sp).isEmpty = true
    · rw [if_pos he] at ht2
      simp [speaks] at ht2
    · rw [if_neg he] at ht2
      exact mem_speaks_runLoopFrom _ flag _ 0 t ht2
  exact (fragment_text_props _ sp t (mem_fragment_pipeline raw sp t h1)).1

/-- Witness for C10: the raw text `" A "` in paragraph mode, whose single
fragment is `"A"`, spoken once by the loop. -/
theorem C10_witness :
    (['A'] : Txt) ∈ DocumentProcessor.fragment_text [' ', 'A', ' '] SplitOption.paragraph ∧
    (['A'] : Txt) ∈ speaks
      ((ReadRepeatMethod.construct (fragment_pipeline [' ', 'A', ' '] SplitOption.paragraph) none).runEvents
        (fun _ => false)) ∧
    (((['A'] : Txt) ≠ [] ∧ pyStrip ['A'] = ['A']) ∧
      List.Sublist (DocumentProcessor.fragment_text [' ', 'A', ' '] SplitOption.paragraph)
        ((sourcePieces [' ', 'A', ' '] SplitOption.paragraph).map pyStrip) ∧
      (['A'] : Txt) ≠ []) :=
  ⟨by decide, by decide,
   C10_fragments_clean [' ', 'A', ' '] SplitOption.paragraph none (fun _ => false)
     ['A'] ['A'] (by decide) (by decide)⟩

end Memorando
